import Mathlib

/-!
Verification development for the daily-quiz backend (quiz lifecycle and
finalization engine).  The Lean definitions below are a shallow embedding of
the JavaScript source:

* `modules/quiz/quiz.lifecycle.js`   — quiz state machine (`QUIZ_TRANSITIONS`,
  `transitionQuiz`, `isQuizClosed`, …)
* `utils/quizEligibility.js`         — `isProfileComplete`, `evaluateEligibility`,
  `evaluateEligibilityForWinners`
* `modules/quiz/quiz.service.js`     — `sortAttemptsDeterministic`,
  `finalizeQuizAttempt`, `getLeaderboard`, `calculateAndPersistWinners`,
  `finalizeWinners`, `endQuiz`, `submitAnswer`
* `modules/quiz/quizAttempt.atomic.js` — `createQuizAttemptAtomic`,
  `handleExistingAttempt`, `shuffleArray`

Modelling conventions:
* JavaScript timestamps (`Date` values, `Date.now()`) are `Nat` milliseconds.
  A stored `Date` is always truthy in JS regardless of its value, so a
  possibly-absent date field is `Option Nat` with `none` = absent.
* Mongo documents are Lean structures; a `findOne` result is an `Option`.
* Sparse JS arrays whose holes matter are `List (Option _)`; an in-range
  `null` entry and an out-of-range read both behave as non-values in every
  use site below, so both are `none` when read through `List.get?`.
* `sha256(x)` is modelled by the injective "identity digest" (the hashed
  string itself): no claim depends on digest values, only on equality.
* Database writes are modelled by returning the updated documents; logging,
  socket emission, caching, audit and observability side effects are elided.
* Fallible JS code (`throw`) is `Except String`.
-/

namespace DME

/-- JS truthiness of a possibly-absent string field: `undefined`, `null` and
the empty string are falsy. -/
def truthyS : Option String → Bool
  | none => false
  | some s => s ≠ ""

/-- A JS whitespace character (the common subset relevant here). -/
def isWs (c : Char) : Bool :=
  c = ' ' || c = '\t' || c = '\n' || c = '\r'

/-- JS `String.prototype.trim`. -/
def jsTrim (s : String) : String :=
  String.mk (((s.data.dropWhile isWs).reverse.dropWhile isWs).reverse)

/-- JS `Array.prototype.findIndex` / `indexOf` (with the `>= 0` guard folded
into the `Option`): index of the first element satisfying `p`. -/
def jsFindIndex (p : α → Bool) : List α → Option Nat
  | [] => none
  | a :: t => if p a then some 0 else (jsFindIndex p t).map (· + 1)

/-- Insert `a` into a sorted list, after every element strictly before it
(`lt b a`), so equal elements keep their original relative order. -/
def insertByLt (lt : α → α → Bool) (a : α) : List α → List α
  | [] => [a]
  | b :: t => if lt b a then b :: insertByLt lt a t else a :: b :: t

/-- Stable comparison sort (the semantics of JS `Array.prototype.sort` with
a comparator: ordered by the comparator, ties in original order).  `lt b a`
holds when the comparator ranks `b` strictly before `a`. -/
def sortByLt (lt : α → α → Bool) : List α → List α
  | [] => []
  | a :: t => insertByLt lt a (sortByLt lt t)

/-- Swap two positions of a list (used by the Fisher-Yates shuffle); returns
the list unchanged when an index is out of range. -/
def listSwap (l : List α) (i j : Nat) : List α :=
  match l.get? i, l.get? j with
  | some a, some b => (l.set i b).set j a
  | _, _ => l

/-- One round of the seeded linear-congruential generator used by
`shuffleArray`: `seed = (seed * 9301 + 49297) % 233280`. -/
def lcgNext (seed : Nat) : Nat :=
  (seed * 9301 + 49297) % 233280

/-- The Fisher-Yates loop of `shuffleArray`, from index `i` down to `1`.
`Math.floor(random() * (i + 1))` is modelled as the exact rational floor
`seed * (i + 1) / 233280` (float rounding is assumed exact; no claim below
depends on concrete shuffle values). -/
def fisherYates (l : List α) (seed : Nat) : Nat → List α
  | 0 => l
  | Nat.succ i =>
    let seed1 := lcgNext seed
    let j := seed1 * (i + 2) / 233280
    fisherYates (listSwap l (i + 1) j) seed1 i

/-- Model of `shuffleArray(array, seed)` from `quizAttempt.atomic.js` /
`quiz.service.js`. -/
def shuffleArray (l : List α) (seed : Nat) : List α :=
  match l.length with
  | 0 => l
  | Nat.succ n => fisherYates l seed n

/-! ## Quiz lifecycle (`modules/quiz/quiz.lifecycle.js`) -/

/-- Model of `QUIZ_STATES`. -/
inductive QuizState
  | DRAFT
  | SCHEDULED
  | LOCKED
  | PAYMENT_CLOSED
  | LIVE
  | ENDED
  | FINALIZED
  | RESULT_PUBLISHED
deriving DecidableEq, Repr

open QuizState

/-- String rendering of a state (used in error messages). -/
def stateName : QuizState → String
  | DRAFT => "DRAFT"
  | SCHEDULED => "SCHEDULED"
  | LOCKED => "LOCKED"
  | PAYMENT_CLOSED => "PAYMENT_CLOSED"
  | LIVE => "LIVE"
  | ENDED => "ENDED"
  | FINALIZED => "FINALIZED"
  | RESULT_PUBLISHED => "RESULT_PUBLISHED"

/-- Model of `QUIZ_TRANSITIONS` (a missing key reads as `[]`, matching
`QUIZ_TRANSITIONS[fromState] || []`). -/
def quizTransitions : QuizState → List QuizState
  | DRAFT => [SCHEDULED, LOCKED]
  | SCHEDULED => [LOCKED, LIVE]
  | LOCKED => [LIVE, PAYMENT_CLOSED]
  | PAYMENT_CLOSED => [LIVE]
  | LIVE => [ENDED]
  | ENDED => [FINALIZED, RESULT_PUBLISHED]
  | FINALIZED => [RESULT_PUBLISHED]
  | RESULT_PUBLISHED => []

/-- A quiz question (`question.model`): text, four options, zero-based
correct index. -/
structure Question where
  qid : String
  text : String
  options : List String
  correctIndex : Nat
deriving DecidableEq, Repr

/-- The per-day quiz row (`quiz.model`), restricted to the fields the
embedded functions read or write. -/
structure Quiz where
  quizDate : String
  state : QuizState
  questions : List Question
  subscriptionRequired : Option String
  minStreakRequired : Option Nat
  endTime : Option Nat
  lockedAt : Option Nat
  paymentClosedAt : Option Nat
  liveAt : Option Nat
  endedAt : Option Nat
  finalizedAt : Option Nat
  resultPublishedAt : Option Nat
deriving DecidableEq, Repr

/-- The timestamp write of `transitionQuiz` (`timestampFields[toState]`;
`DRAFT` and `SCHEDULED` have no timestamp field). -/
def setTransitionTimestamp (q : Quiz) (toState : QuizState) (now : Nat) : Quiz :=
  match toState with
  | LOCKED => { q with lockedAt := some now }
  | PAYMENT_CLOSED => { q with paymentClosedAt := some now }
  | LIVE => { q with liveAt := some now }
  | ENDED => { q with endedAt := some now }
  | FINALIZED => { q with finalizedAt := some now }
  | RESULT_PUBLISHED => { q with resultPublishedAt := some now }
  | _ => q

/-- Model of `transitionQuiz(quizDate, toState)`: validate against `QUIZ_TRANSITIONS`,
then set the new state and the corresponding timestamp in one save. -/
def transitionQuiz (q : Quiz) (toState : QuizState) (now : Nat) : Except String Quiz :=
  if ¬ (quizTransitions q.state).contains toState then
    .error ("Invalid transition from " ++ stateName q.state ++ " to " ++ stateName toState)
  else
    .ok (setTransitionTimestamp { q with state := toState } toState now)

/-- Model of `isQuizClosed(quizDate)`: `[ENDED, RESULT_PUBLISHED].includes(state)`
(the quiz state is `none` when no quiz row exists). -/
def isQuizClosed : Option QuizState → Bool
  | none => false
  | some s => [ENDED, RESULT_PUBLISHED].contains s

/-! ## Eligibility (`utils/quizEligibility.js`) -/

/-- A user row, restricted to the fields read by the eligibility pipeline and
admission. -/
structure User where
  fullName : Option String
  name : Option String
  username : Option String
  age : Option Nat
  classGrade : Option String
  schoolName : Option String
  gender : Option String
  subscriptionTier : Option String
  subscriptionExpiresAt : Option Nat
  currentStreak : Option Nat
  freeQuizCredits : Nat
deriving DecidableEq, Repr

/-- A payment row (`findOne({user, quizDate, status})` results carry these
fields). -/
structure Payment where
  pid : String
  status : String
  quizDate : String
deriving DecidableEq, Repr

/-- Model of `{eligible, reason}` as returned by the evaluators. -/
structure EligResult where
  eligible : Bool
  reason : String
deriving DecidableEq, Repr

/-- Model of `isProfileComplete(user)` (the `!user` guard is handled by the callers
passing `Option User`). -/
def isProfileComplete (u : User) : Bool :=
  let hasName := truthyS u.fullName || truthyS u.name
  let hasUsername := truthyS u.username
  let hasAge := match u.age with
    | some a => decide (13 ≤ a ∧ a ≤ 99)
    | none => false
  let hasClass := match u.classGrade with
    | some c => ["10th", "12th", "Other"].contains c
    | none => false
  let hasSchool := match u.schoolName with
    | some s => decide (0 < (jsTrim s).length)
    | none => false
  let hasGender := match u.gender with
    | some g => ["Male", "Female", "Other"].contains g
    | none => false
  hasName && hasUsername && hasAge && hasClass && hasSchool && hasGender

/-- Model of `tierHierarchy[x] || 0` with `tierHierarchy = {FREE: 0, BASIC: 1, PREMIUM: 2}`. -/
def tierValue : Option String → Nat
  | some "BASIC" => 1
  | some "PREMIUM" => 2
  | _ => 0

/-- Model of `quiz.subscriptionRequired && quiz.subscriptionRequired !== 'FREE'`: the
guard of the subscription block of `evaluateEligibility`. -/
def subscriptionGate (qz : Quiz) : Bool :=
  truthyS qz.subscriptionRequired && qz.subscriptionRequired != some "FREE"

/-- Model of `evaluateEligibility({user, payment, quiz, now})`. -/
def evaluateEligibility (user : Option User) (payment : Option Payment)
    (quiz : Option Quiz) (now : Nat) : EligResult :=
  match quiz with
  | none => ⟨false, "QUIZ_NOT_LIVE"⟩
  | some qz =>
    if qz.state ≠ LIVE then ⟨false, "QUIZ_NOT_LIVE"⟩
    else match user with
    | none => ⟨false, "USER_NOT_FOUND"⟩
    | some u =>
      if ¬ isProfileComplete u then ⟨false, "PROFILE_INCOMPLETE"⟩
      else if (match payment with
               | none => true
               | some p => p.status != "SUCCESS" || p.quizDate != qz.quizDate) then
        ⟨false, "PAYMENT_MISSING"⟩
      else
        if subscriptionGate qz && (! truthyS u.subscriptionTier || u.subscriptionTier == some "FREE") then
          ⟨false, "SUBSCRIPTION_REQUIRED"⟩
        else if subscriptionGate qz && decide (tierValue u.subscriptionTier < tierValue qz.subscriptionRequired) then
          ⟨false, "INSUFFICIENT_SUBSCRIPTION"⟩
        else if subscriptionGate qz && (match u.subscriptionExpiresAt with
                                        | some e => decide (now > e)
                                        | none => false) then
          ⟨false, "SUBSCRIPTION_EXPIRED"⟩
        else if (match qz.minStreakRequired with
                 | some m => decide (0 < m) && (match u.currentStreak with
                                               | some c => c == 0 || decide (c < m)
                                               | none => true)
                 | none => false) then
          ⟨false, "INSUFFICIENT_STREAK"⟩
        else if (match qz.endTime with
                 | some e => decide (now > e)
                 | none => false) then
          ⟨false, "QUIZ_ENDED"⟩
        else ⟨true, "ELIGIBLE"⟩

/-! ## Attempts, device binding, answers -/

/-- The `eligibilitySnapshot` sub-document frozen onto an attempt at
creation. -/
structure EligSnapshot where
  eligible : Bool
  reason : String
  paymentId : Option String
  snapshotAt : Nat
deriving DecidableEq, Repr

/-- A quiz attempt row (`quizAttempt.model`), restricted to the fields the
embedded functions read or write.  `answers` and `answerTimestamps` entries
are `none` for JS `null` fillers; `attemptId` is the Mongo `_id` rendered as
a string; `createdAt` is the schema timestamp. -/
structure QuizAttempt where
  user : String
  quizDate : String
  answers : List (Option Nat)
  score : Nat
  totalTimeMs : Nat
  isEligible : Bool
  counted : Bool
  answersSaved : Bool
  questionOrder : Option (List Nat)
  questionIds : Option (List String)
  deviceId : Option String
  deviceFingerprint : Option String
  ipAddress : Option String
  lockedDeviceHash : Option String
  eligibilitySnapshot : Option EligSnapshot
  quizStartedAt : Option Nat
  eligibilityReason : String
  eligibilitySnapshotAt : Option Nat
  currentQuestionIndex : Nat
  optionOrders : Option (List (Option (List Nat)))
  questionStartTimes : Option (List (Option Nat))
  answerTimestamps : List (Option Nat)
  completedAt : Option Nat
  createdAt : Option Nat
  finalizedAt : Option Nat
  attemptId : String
deriving DecidableEq, Repr

/-- Model of `evaluateEligibilityForWinners({user, payment, quiz, attempt,
hasRefundAfterQuizStart})`. -/
def evaluateEligibilityForWinners (user : Option User) (payment : Option Payment)
    (quiz : Quiz) (attempt : Option QuizAttempt)
    (hasRefundAfterQuizStart : Bool) : EligResult :=
  match user with
  | none => ⟨false, "USER_NOT_FOUND"⟩
  | some _ =>
    match attempt with
    | none => ⟨false, "QUIZ_NOT_COMPLETED"⟩
    | some att =>
      if ¬ att.answersSaved then ⟨false, "QUIZ_NOT_COMPLETED"⟩
      else match payment with
      | none => ⟨false, "PAYMENT_MISSING"⟩
      | some p =>
        if p.status != "SUCCESS" || p.quizDate != quiz.quizDate then
          ⟨false, "PAYMENT_MISSING"⟩
        else if p.status == "REFUNDED" || hasRefundAfterQuizStart then
          ⟨false, "REFUND_VOIDS_ELIGIBILITY"⟩
        else ⟨true, "COMPLETED_QUIZ"⟩

/-- Every reason string `evaluateEligibility` can produce (read off its
return sites). -/
def evalEligibilityReasons : List String :=
  ["QUIZ_NOT_LIVE", "USER_NOT_FOUND", "PROFILE_INCOMPLETE", "PAYMENT_MISSING",
   "SUBSCRIPTION_REQUIRED", "INSUFFICIENT_SUBSCRIPTION", "SUBSCRIPTION_EXPIRED",
   "INSUFFICIENT_STREAK", "QUIZ_ENDED", "ELIGIBLE"]

/-- Every reason string `evaluateEligibilityForWinners` can produce. -/
def winnersEligibilityReasons : List String :=
  ["USER_NOT_FOUND", "QUIZ_NOT_COMPLETED", "PAYMENT_MISSING",
   "REFUND_VOIDS_ELIGIBILITY", "COMPLETED_QUIZ"]

/-- The closed reason set asserted by the specification (§4.2). -/
def specClaimedReasons : List String :=
  ["ELIGIBLE", "PAYMENT_MISSING", "QUIZ_NOT_LIVE", "PROFILE_INCOMPLETE",
   "LATE_SUBMISSION", "SUBSCRIPTION_REQUIRED", "INSUFFICIENT_STREAK",
   "QUIZ_ENDED", "REFUND_VOIDS_ELIGIBILITY"]

/-- Device information supplied with a join or answer request. -/
structure DeviceInfo where
  deviceId : Option String
  deviceFingerprint : Option String
  ipAddress : Option String
deriving DecidableEq, Repr

/-- Model of `sha256(deviceId + ':' + fingerprint + ':' + ip)`, with the digest
modelled as the hashed string itself (injective, which is all any use site
relies on). -/
def deviceHash (d : DeviceInfo) : String :=
  (d.deviceId.getD "") ++ ":" ++ (d.deviceFingerprint.getD "") ++ ":" ++ (d.ipAddress.getD "")

/-! ## Deterministic ranking (`sortAttemptsDeterministic`) -/

/-- Model of `a.attempt.completedAt || a.attempt.createdAt || 0` (a stored `Date` is
always truthy, so only absent fields fall through). -/
def subTime (a : QuizAttempt) : Nat :=
  (a.completedAt.getD (a.createdAt.getD 0))

/-- Lexicographic comparison of character sequences (by code point). -/
def charListLt : List Char → List Char → Bool
  | [], [] => false
  | [], _ :: _ => true
  | _ :: _, [] => false
  | a :: as, b :: bs =>
    if a.toNat < b.toNat then true
    else if b.toNat < a.toNat then false
    else charListLt as bs

/-- Model of `String.prototype.localeCompare` on ids, as a sign value (modelled as
code-point lexicographic comparison, which is the total order the
deterministic tie-break relies on). -/
def localeCompare (x y : String) : Int :=
  if charListLt x.data y.data then -1
  else if charListLt y.data x.data then 1
  else 0

/-- Model of `sortAttemptsDeterministic(a, b)` from `quiz.service.js` (the comparator
receives `{attempt}` wrappers and reads only `attempt`; dates are compared
numerically). -/
def sortAttemptsDeterministic (a b : QuizAttempt) : Int :=
  if b.score ≠ a.score then (b.score : Int) - (a.score : Int)
  else if a.totalTimeMs ≠ b.totalTimeMs then (a.totalTimeMs : Int) - (b.totalTimeMs : Int)
  else if subTime a ≠ subTime b then (subTime a : Int) - (subTime b : Int)
  else localeCompare a.attemptId b.attemptId

/-! ## Scoring (`finalizeQuizAttempt`) -/

/-- Model of `attempt.questionOrder || quiz.questions.map((_, i) => i)` (an array is
truthy even when empty, so only an absent field falls back). -/
def attemptQuestionOrder (att : QuizAttempt) (qz : Quiz) : List Nat :=
  att.questionOrder.getD (List.range qz.questions.length)

/-- One iteration of the scoring loop of `finalizeQuizAttempt`, for the
original question at `originalIndex`: locate the slot via
`questionOrder.indexOf`, read the stored (shuffled) answer, and map it
through the slot's option permutation when a 4-element order is present,
falling back to a direct comparison otherwise.  A `null` stored answer
(`none`) never scores: `optionOrder[null]` is `undefined` in JS and
`null === correctIndex` is false. -/
def scoreOne (questions : List Question) (questionOrder : List Nat)
    (optionOrders : List (Option (List Nat))) (answers : List (Option Nat))
    (originalIndex : Nat) : Bool :=
  match questions.get? originalIndex with
  | none => false
  | some q =>
    match jsFindIndex (fun x => x == originalIndex) questionOrder with
    | none => false
    | some shuffledIndex =>
      match answers.get? shuffledIndex with
      | none => false
      | some shuffledAnswer =>
        match optionOrders.get? shuffledIndex with
        | some (some l) =>
          if l.length = 4 then
            match shuffledAnswer with
            | some a => l.get? a == some q.correctIndex
            | none => false
          else
            match shuffledAnswer with
            | some a => a == q.correctIndex
            | none => false
        | _ =>
          match shuffledAnswer with
          | some a => a == q.correctIndex
          | none => false

/-- The scoring loop of `finalizeQuizAttempt`:
`quiz.questions.forEach((originalQuestion, originalIndex) => { ... score++ })`. -/
def computeScore (questions : List Question) (questionOrder : List Nat)
    (optionOrders : List (Option (List Nat))) (answers : List (Option Nat)) : Nat :=
  (List.range questions.length).foldl
    (fun score oi => if scoreOne questions questionOrder optionOrders answers oi then score + 1 else score) 0

/-- Specification-side reading of one slot (§8, scoring invariance): slot
`si` counts exactly when the user's originally-selected option —the stored
chosen index mapped through the slot's option permutation— is the correct
option of the originally ordered question at `questionOrder[si]`. -/
def specSlotCorrect (questions : List Question) (questionOrder : List Nat)
    (optionOrders : List (Option (List Nat))) (answers : List (Option Nat))
    (si : Nat) : Bool :=
  match questionOrder.get? si with
  | none => false
  | some oi =>
    match questions.get? oi with
    | none => false
    | some q =>
      match answers.get? si with
      | some (some a) =>
        (match optionOrders.get? si with
         | some (some l) => l.get? a == some q.correctIndex
         | _ => false)
      | _ => false

/-- Specification-side score: the number of slots whose originally-selected
option is the correct option. -/
def specScoreBySlot (questions : List Question) (questionOrder : List Nat)
    (optionOrders : List (Option (List Nat))) (answers : List (Option Nat)) : Nat :=
  (List.range questionOrder.length).countP
    (specSlotCorrect questions questionOrder optionOrders answers)

/-- Inputs of `finalizeQuizAttempt(userId, quizDate)`: the documents its
queries would return, plus the clock. -/
structure FinalizeAttemptEnv where
  attempt : Option QuizAttempt
  quiz : Option Quiz
  user : Option User
  payment : Option Payment
  now : Nat
deriving Repr

/-- Model of `finalizeQuizAttempt`: idempotent on `finalizedAt`; freezes eligibility
from the snapshot (re-evaluating only when the snapshot is missing); scores
only eligible attempts, else score 0; marks the attempt saved/completed/
finalized. -/
def finalizeQuizAttempt (env : FinalizeAttemptEnv) : Except String QuizAttempt :=
  match env.attempt with
  | none => .error "No attempt found"
  | some att =>
    if att.finalizedAt.isSome then .ok att
    else if att.answersSaved then .ok { att with finalizedAt := some env.now }
    else match env.quiz with
    | none => .error "Quiz not found"
    | some qz =>
      let eligibility : EligResult :=
        match att.eligibilitySnapshot with
        | some s => ⟨s.eligible, s.reason⟩
        | none => evaluateEligibility env.user env.payment (some qz) env.now
      let score :=
        if eligibility.eligible then
          computeScore qz.questions (attemptQuestionOrder att qz) (att.optionOrders.getD []) att.answers
        else 0
      .ok { att with
            score := score,
            answersSaved := true,
            isEligible := eligibility.eligible,
            counted := eligibility.eligible,
            eligibilityReason := eligibility.reason,
            eligibilitySnapshotAt := some env.now,
            completedAt := some env.now,
            finalizedAt := some env.now }

/-! ## Leaderboard (`getLeaderboard`) -/

/-- A published winner row (`winner.model`), restricted to the ranking
fields; the forensic `quizSnapshot`/`attemptSnapshot` hash sub-documents are
elided. -/
structure Winner where
  quizDate : String
  user : String
  rank : Nat
  score : Nat
  totalTimeMs : Nat
deriving DecidableEq, Repr

/-- Model of `getLeaderboard(quizDate)`: gated on `isQuizClosed`; on failure the
surrounding catch rethrows `Failed to retrieve leaderboard`.  The Redis
cache layer is elided (it is read-through over the same winner rows). -/
def getLeaderboard (state : Option QuizState) (winners : List Winner) :
    Except String (List Winner) :=
  if ¬ isQuizClosed state then .error "Failed to retrieve leaderboard"
  else .ok (sortByLt (fun a b => a.rank < b.rank) winners)

/-! ## Answer ingestion (`submitAnswer`) -/

/-- One entry of a `QuizProgress.questions` history. -/
structure QuestionProgress where
  questionId : String
  sentAt : Nat
  answeredAt : Option Nat
  isCorrect : Option Bool
deriving DecidableEq, Repr

/-- The per-`(user, date)` progress document (`quizProgress.model`). -/
structure QuizProgress where
  user : String
  quizDate : String
  questions : List QuestionProgress
deriving DecidableEq, Repr

/-- Inputs of `submitAnswer(userId, questionId, selectedOptionIndex,
deviceInfo)`: the documents and Redis counters its reads would return, plus
the clock (`Date.now()` is read several times during one call; the calls are
modelled by the single instant `now`). -/
structure SubmitEnv where
  today : String
  quiz : Option Quiz
  attempt : Option QuizAttempt
  progress : Option QuizProgress
  user : Option User
  payment : Option Payment
  currentIndex : Nat
  questionStartTime : Nat
  now : Nat
deriving Repr

/-- The JSON object returned by `submitAnswer`; absent fields are `none`
(for the option-valued ones) or `false` (`alreadyAnswered` is absent on the
accepted path, and absent JS fields are falsy). -/
structure SubmitResult where
  success : Bool
  alreadyAnswered : Bool
  isCorrect : Option Bool
  countsForScore : Option Bool
  message : String
deriving DecidableEq, Repr

/-- Result and updated documents of one `submitAnswer` call. -/
structure SubmitOut where
  result : SubmitResult
  attempt : QuizAttempt
  progress : Option QuizProgress
deriving DecidableEq, Repr

/-- A2 gate: `now - attempt.quizStartedAt.getTime() > QUIZ_DURATION_MS`
(30 minutes). -/
def quizTimeLimitExceeded (att : QuizAttempt) (now : Nat) : Bool :=
  match att.quizStartedAt with
  | some t => decide (now - t > 1800000)
  | none => false

/-- A4 gate: `attempt.lockedDeviceHash && attempt.lockedDeviceHash !==
currentDeviceHash`. -/
def lockedDeviceMismatch (att : QuizAttempt) (d : DeviceInfo) : Bool :=
  truthyS att.lockedDeviceHash && att.lockedDeviceHash != some (deviceHash d)

/-- Legacy gate: `attempt.deviceId && deviceInfo.deviceId && attempt.deviceId
!== deviceInfo.deviceId`. -/
def legacyDeviceIdMismatch (att : QuizAttempt) (d : DeviceInfo) : Bool :=
  truthyS att.deviceId && truthyS d.deviceId && att.deviceId != d.deviceId

/-- Legacy gate: fingerprint variant. -/
def legacyFingerprintMismatch (att : QuizAttempt) (d : DeviceInfo) : Bool :=
  truthyS att.deviceFingerprint && truthyS d.deviceFingerprint
    && att.deviceFingerprint != d.deviceFingerprint

/-- Model of `questionOrder.findIndex(idx => quiz.questions[idx]._id.toString() ===
questionId)`. -/
def findSlotOfQuestion (qz : Quiz) (questionOrder : List Nat) (questionId : String) :
    Option Nat :=
  jsFindIndex (fun idx =>
    match qz.questions.get? idx with
    | some q => q.qid == questionId
    | none => false) questionOrder

/-- Gate: the committed question id for the slot exists and differs from the
submitted one. -/
def questionIdMismatch (att : QuizAttempt) (questionIndex : Nat) (questionId : String) :
    Bool :=
  match att.questionIds with
  | some ids =>
    match ids.get? questionIndex with
    | some expectedId => expectedId != "" && expectedId != questionId
    | none => false
  | none => false

/-- A2 gate: `attempt.questionStartTimes[questionIndex]` exists and the
per-question 15 s budget is spent. -/
def perQuestionExpired (att : QuizAttempt) (questionIndex : Nat) (now : Nat) : Bool :=
  match att.questionStartTimes with
  | some ts =>
    match ts.get? questionIndex with
    | some (some t) => decide (now - t > 15000)
    | _ => false
  | none => false

/-- The progress entry for a question id, if any
(`progress?.questions.find(q => q.questionId.toString() === questionId)`). -/
def progressEntryFor (progress : Option QuizProgress) (questionId : String) :
    Option QuestionProgress :=
  match progress with
  | some p => p.questions.find? (fun q => q.questionId == questionId)
  | none => none

/-- Duplicate gate 1: the progress history already records an `answeredAt`
for this question. -/
def progressAlreadyAnswered (progress : Option QuizProgress) (questionId : String) : Bool :=
  match progressEntryFor progress questionId with
  | some qp => qp.answeredAt.isSome
  | none => false

/-- Duplicate gate 2: `attempt.answers[questionIndex] !== undefined &&
attempt.answers[questionIndex] !== null`. -/
def attemptAlreadyAnswered (att : QuizAttempt) (questionIndex : Nat) : Bool :=
  match att.answers.get? questionIndex with
  | some (some _) => true
  | _ => false

/-- Anti-cheat gate: answered less than 2 s after the question was sent
(only when a progress entry tracks `sentAt`). -/
def rapidAnswer (progress : Option QuizProgress) (questionId : String) (now : Nat) : Bool :=
  match progressEntryFor progress questionId with
  | some qp => decide (now - qp.sentAt < 2000)
  | none => false

/-- The `{success: true, alreadyAnswered: true}` return, with no document
writes. -/
def dupOut (att : QuizAttempt) (progress : Option QuizProgress) : SubmitOut :=
  { result := { success := true, alreadyAnswered := true, isCorrect := none,
                countsForScore := none,
                message := "Answer already submitted for this question" },
    attempt := att,
    progress := progress }

/-- The accepted-path tail of `submitAnswer` (everything after the gates):
`hasPaid = isUserEligible(...)`; map the selected option through the slot's
stored option permutation; record answer and timestamp at the slot,
extending both arrays with nulls; append the progress entry when the user
has paid; build the response object. -/
def acceptAnswer (env : SubmitEnv) (questionId : String) (selectedOptionIndex : Nat)
    (att : QuizAttempt) (question : Question) (questionIndex : Nat) : SubmitOut :=
  let hasPaid := (evaluateEligibility env.user env.payment env.quiz env.now).eligible
  let answeredAt := env.now
  let optionOrder : Option (List Nat) :=
    match att.optionOrders with
    | some os =>
      match os.get? questionIndex with
      | some (some l) => some l
      | _ => none
    | none => none
  let originalSelectedIndex : Option Nat :=
    match optionOrder with
    | some l => l.get? selectedOptionIndex
    | none => some selectedOptionIndex
  let isCorrect := originalSelectedIndex == some question.correctIndex
  let padCount := questionIndex + 1 - att.answers.length
  let answers1 := att.answers ++ List.replicate padCount none
  let ts1 := att.answerTimestamps ++ List.replicate padCount none
  let att1 := { att with
                answers := answers1.set questionIndex (some selectedOptionIndex),
                answerTimestamps := ts1.set questionIndex (some answeredAt) }
  let questionStart : Nat :=
    match att.questionStartTimes with
    | some ts =>
      match ts.get? questionIndex with
      | some (some t) => t
      | _ => env.now - 15000
    | none => env.now - 15000
  let newEntry : QuestionProgress :=
    { questionId := questionId, sentAt := questionStart,
      answeredAt := some answeredAt, isCorrect := some isCorrect }
  let progress1 :=
    if hasPaid then
      some (match env.progress with
            | some p => { p with questions := p.questions ++ [newEntry] }
            | none => { user := att.user, quizDate := env.today,
                        questions := [newEntry] })
    else env.progress
  { result := { success := true, alreadyAnswered := false,
                isCorrect := some isCorrect,
                countsForScore := some hasPaid,
                message := if hasPaid then "Answer recorded and will count"
                           else "Answer recorded but will not count without payment" },
    attempt := att1,
    progress := progress1 }

/-- Model of `submitAnswer(userId, questionId, selectedOptionIndex, deviceInfo)` from
`quiz.service.js`, gate for gate; the accepted tail is `acceptAnswer`.
Anti-cheat event recording on the error paths is elided (the errors
themselves are kept). -/
def submitAnswer (env : SubmitEnv) (questionId : String) (selectedOptionIndex : Nat)
    (d : DeviceInfo) : Except String SubmitOut :=
  match env.quiz with
  | none => .error "Quiz is not live - answers are locked"
  | some qz =>
    if qz.state ≠ QuizState.LIVE then .error "Quiz is not live - answers are locked"
    else match env.attempt with
    | none => .error "No attempt found"
    | some att =>
      if quizTimeLimitExceeded att env.now then
        .error "Quiz time limit exceeded - quiz has ended"
      else if lockedDeviceMismatch att d then
        .error "Device mismatch detected - this quiz is locked to a different device"
      else if legacyDeviceIdMismatch att d then
        .error "Device mismatch detected - possible cheating attempt"
      else if legacyFingerprintMismatch att d then
        .error "Device fingerprint mismatch detected - possible cheating attempt"
      else
        match qz.questions.find? (fun q => q.qid == questionId) with
        | none => .error "Question not found"
        | some question =>
          match findSlotOfQuestion qz (attemptQuestionOrder att qz) questionId with
          | none => .error "Question not in user order"
          | some questionIndex =>
            if questionIdMismatch att questionIndex questionId then
              .error "Question identity mismatch - possible exploit"
            else if questionIndex ≠ env.currentIndex then
              .error "Question has already advanced. Answer submitted too late."
            else if env.now - env.questionStartTime > 15000 then
              .error "Time limit exceeded. Answer submitted too late."
            else if perQuestionExpired att questionIndex env.now then
              .error "Time limit exceeded for this question."
            else if progressAlreadyAnswered env.progress questionId then
              .ok (dupOut att env.progress)
            else if attemptAlreadyAnswered att questionIndex then
              .ok (dupOut att env.progress)
            else if rapidAnswer env.progress questionId env.now then
              .error "Answer submitted too quickly - possible automated cheating"
            else
              .ok (acceptAnswer env questionId selectedOptionIndex att question questionIndex)

/-! ## Admission (`createQuizAttemptAtomic`, `handleExistingAttempt`) -/

/-- Inputs of `createQuizAttemptAtomic(userId, quizDate, deviceInfo)`: the
documents its queries would return.  `existingAttempt` is the `(user, date)`
attempt row already present, if any; `payment` is the SUCCESS payment row
for `(user, date)`, if any. -/
structure JoinEnv where
  quiz : Option Quiz
  user : Option User
  payment : Option Payment
  existingAttempt : Option QuizAttempt
  currentIndex : Nat
  now : Nat
deriving Repr

/-- Model of `handleExistingAttempt(existing, deviceInfo, userId, quizDate)`: reached
only from the duplicate-key (`err.code === 11000`) race fallback of
`createQuizAttemptAtomic`. -/
def handleExistingAttempt (existing : QuizAttempt) (d : DeviceInfo) :
    Except String QuizAttempt :=
  if existing.answersSaved then
    .error "You have already started this quiz. Please complete it or wait for the next quiz."
  else if truthyS existing.lockedDeviceHash && existing.lockedDeviceHash != some (deviceHash d) then
    .error "Device mismatch - this quiz attempt is locked to a different device"
  else .ok existing

/-- Model of `grantFreeQuizEntryIfAvailable` (payment.service): when no SUCCESS
payment exists and the user holds a free credit, a synthetic SUCCESS payment
is created; returns the effective SUCCESS payment, if any. -/
def grantFreeQuizEntry (user : Option User) (payment : Option Payment)
    (quizDate : String) : Option Payment :=
  match payment with
  | some p => some p
  | none =>
    match user with
    | some u =>
      if u.freeQuizCredits > 0 then
        some { pid := "FREE_" ++ quizDate, status := "SUCCESS", quizDate := quizDate }
      else none
    | none => none

/-- Model of `createQuizAttemptAtomic`: the sequential (race-free) semantics of the
`findOneAndUpdate` upsert with `$setOnInsert` and `new: true`: when a
`(user, date)` row exists it is returned unchanged (the update inserts
nothing), otherwise the insert document is created.  The duplicate-key
fallback to `handleExistingAttempt` cannot fire without a concurrent
insert.  The Mongo-generated `_id` and schema `createdAt` of a fresh row are
modelled deterministically. -/
def createQuizAttemptAtomic (env : JoinEnv) (userId quizDate : String)
    (d : DeviceInfo) : Except String QuizAttempt :=
  match env.quiz with
  | none => .error "Quiz is not live"
  | some qz =>
    if qz.state ≠ QuizState.LIVE then .error "Quiz is not live"
    else
      let granted := grantFreeQuizEntry env.user env.payment quizDate
      let eligibility := evaluateEligibility env.user granted (some qz) env.now
      let dh := deviceHash d
      let seed := (userId.toList.map Char.toNat).sum
      let shuffledIndices := shuffleArray (List.range qz.questions.length) seed
      let questionIds := shuffledIndices.map (fun idx =>
        match qz.questions.get? idx with
        | some q => q.qid
        | none => "")
      let insertDoc : QuizAttempt :=
        { user := userId, quizDate := quizDate, answers := [], score := 0,
          totalTimeMs := 0, isEligible := eligibility.eligible,
          counted := eligibility.eligible, answersSaved := false,
          questionOrder := some shuffledIndices, questionIds := some questionIds,
          deviceId := d.deviceId, deviceFingerprint := d.deviceFingerprint,
          ipAddress := d.ipAddress, lockedDeviceHash := some dh,
          eligibilitySnapshot := some { eligible := eligibility.eligible,
                                        reason := eligibility.reason,
                                        paymentId := granted.map (·.pid),
                                        snapshotAt := env.now },
          quizStartedAt := some env.now, eligibilityReason := eligibility.reason,
          eligibilitySnapshotAt := none, currentQuestionIndex := env.currentIndex,
          optionOrders := none, questionStartTimes := none, answerTimestamps := [],
          completedAt := none, createdAt := some env.now, finalizedAt := none,
          attemptId := userId ++ ":" ++ quizDate }
      match env.existingAttempt with
      | some existing =>
        if existing.answersSaved then
          .error "You have already started this quiz. Please complete it or wait for the next quiz."
        else .ok existing
      | none => .ok insertDoc

/-! ## Finalization (`calculateAndPersistWinners`, `finalizeWinners`, `endQuiz`) -/

/-- An attempt joined with its populated user and its SUCCESS payment row
(the shape the winners filter consumes). -/
structure AttemptEntry where
  attempt : QuizAttempt
  user : Option User
  payment : Option Payment
deriving DecidableEq, Repr

/-- The persistent and ephemeral per-day state the finalization functions
touch: the quiz row, the attempt rows, the winner rows, and the Redis
`quiz:{date}:finalize` counter with the fencing-failure event count. -/
structure DayState where
  quiz : Option Quiz
  entries : List AttemptEntry
  winners : List Winner
  fenceCounter : Nat
  fencingFailures : Nat
deriving DecidableEq, Repr

/-- Model of `calculateAndPersistWinners(quizDate, options)` — the transactional
production path (the spec excludes the `NODE_ENV === 'test'` path; both
compute the same rows).  Deletes existing winners, filters saved attempts
through `evaluateEligibilityForWinners`, sorts with
`sortAttemptsDeterministic` (a stable sort), takes the top 20, persists the
rows and moves the quiz to FINALIZED in the same transaction.  Referral and
streak reward side effects are elided. -/
def calculateAndPersistWinners (st : DayState) (disasterMode : Bool) (now : Nat) :
    Except String (DayState × List Winner) :=
  match st.quiz with
  | none => .error "Quiz not found"
  | some qz =>
    if (qz.state = QuizState.FINALIZED ∨ qz.state = QuizState.RESULT_PUBLISHED)
        ∧ ¬ disasterMode then
      .ok (st, sortByLt (fun a b => a.rank < b.rank) st.winners)
    else
      let saved := st.entries.filter (fun e => e.attempt.answersSaved)
      let eligible := saved.filter (fun e =>
        (evaluateEligibilityForWinners e.user e.payment qz (some e.attempt) false).eligible)
      let sorted := sortByLt (fun a b =>
        sortAttemptsDeterministic a.attempt b.attempt < 0) eligible
      let top := sorted.take 20
      if top.isEmpty then
        .ok ({ st with winners := [] }, [])
      else
        let newWinners := (top.zip (List.range top.length)).map (fun p =>
          { quizDate := qz.quizDate, user := p.1.attempt.user, rank := p.2 + 1,
            score := p.1.attempt.score, totalTimeMs := p.1.attempt.totalTimeMs : Winner })
        let qz1 := { qz with state := QuizState.FINALIZED, finalizedAt := some now }
        .ok ({ st with quiz := some qz1, winners := newWinners }, newWinners)

/-- Model of `finalizeWinners(quizDate)`: increment the per-day fence token; a token
other than 1 records a fencing failure and returns; otherwise move the quiz
to ENDED if needed, re-check, and delegate to `calculateAndPersistWinners`.
Audit logging and streak updates are elided. -/
def finalizeWinners (st : DayState) (now : Nat) : Except String DayState :=
  let token := st.fenceCounter + 1
  let st1 := { st with fenceCounter := token }
  if token ≠ 1 then
    .ok { st1 with fencingFailures := st1.fencingFailures + 1 }
  else
    match st1.quiz with
    | none => .error "Quiz not found"
    | some qz =>
      (if qz.state ≠ QuizState.ENDED then
          (transitionQuiz qz QuizState.ENDED now).map
            (fun q1 => { st1 with quiz := some q1 })
        else .ok st1).bind (fun st2 =>
      if qz.state = QuizState.FINALIZED ∨ qz.state = QuizState.RESULT_PUBLISHED then
        .ok st2
      else
        let fresh := match st2.quiz with
          | some q1 => q1.state
          | none => qz.state
        if ¬ (quizTransitions fresh).contains QuizState.FINALIZED then
          .ok st2
        else
          (calculateAndPersistWinners st2 false now).map (fun p => p.1))

/-- Model of `endQuiz(quizDate)`: transition to ENDED, stop advancement (elided), and
evaluate winners directly — no fence token is consulted. -/
def endQuiz (st : DayState) (now : Nat) : Except String DayState :=
  match st.quiz with
  | none => .ok st
  | some qz =>
    (transitionQuiz qz QuizState.ENDED now).bind (fun q1 =>
      (calculateAndPersistWinners { st with quiz := some q1 } false now).map (fun p => p.1))

/-! ## Specification-side relations -/

/-- The transition relation exactly as the specification (§4.3) enumerates
it, for comparison with `quizTransitions`. -/
def claimedQuizTransitions : List (QuizState × QuizState) :=
  [(DRAFT, SCHEDULED), (DRAFT, LOCKED),
   (SCHEDULED, LOCKED), (SCHEDULED, LIVE),
   (LOCKED, PAYMENT_CLOSED), (LOCKED, LIVE),
   (PAYMENT_CLOSED, LIVE),
   (LIVE, ENDED),
   (ENDED, FINALIZED), (ENDED, RESULT_PUBLISHED),
   (FINALIZED, RESULT_PUBLISHED)]

/-! ## Concrete sample documents (for witnesses and counterexamples) -/

/-- A four-option question with correct index 0. -/
def q0 : Question :=
  { qid := "q0", text := "2+2?", options := ["4", "5", "6", "7"], correctIndex := 0 }

/-- A second four-option question with correct index 2. -/
def q1 : Question :=
  { qid := "q1", text := "capital?", options := ["x", "y", "z", "w"], correctIndex := 2 }

/-- A LIVE quiz for 2024-01-01 with one question and no tier/streak/endTime
restrictions. -/
def baseQuiz : Quiz :=
  { quizDate := "2024-01-01", state := LIVE, questions := [q0],
    subscriptionRequired := none, minStreakRequired := none, endTime := none,
    lockedAt := none, paymentClosedAt := none, liveAt := none, endedAt := none,
    finalizedAt := none, resultPublishedAt := none }

/-- A user with a complete profile and no credits. -/
def baseUser : User :=
  { fullName := some "Asha Rao", name := none, username := some "asha",
    age := some 20, classGrade := some "10th", schoolName := some "City School",
    gender := some "Female", subscriptionTier := none,
    subscriptionExpiresAt := none, currentStreak := none, freeQuizCredits := 0 }

/-- A SUCCESS payment for 2024-01-01. -/
def basePayment : Payment :=
  { pid := "p1", status := "SUCCESS", quizDate := "2024-01-01" }

/-- A fresh, empty attempt for `("u1", "2024-01-01")`. -/
def baseAttempt : QuizAttempt :=
  { user := "u1", quizDate := "2024-01-01", answers := [], score := 0,
    totalTimeMs := 0, isEligible := false, counted := false, answersSaved := false,
    questionOrder := none, questionIds := none, deviceId := none,
    deviceFingerprint := none, ipAddress := none, lockedDeviceHash := none,
    eligibilitySnapshot := none, quizStartedAt := none, eligibilityReason := "",
    eligibilitySnapshotAt := none, currentQuestionIndex := 0, optionOrders := none,
    questionStartTimes := none, answerTimestamps := [], completedAt := none,
    createdAt := none, finalizedAt := none, attemptId := "a1" }

/-- Attempt with the earlier `createdAt` but the larger `attemptId`. -/
def aC3 : QuizAttempt :=
  { baseAttempt with
    score := 5, totalTimeMs := 100, completedAt := some 500,
    createdAt := some 50, attemptId := "z" }

/-- Attempt with the later `createdAt` but the smaller `attemptId`. -/
def bC3 : QuizAttempt :=
  { baseAttempt with
    score := 5, totalTimeMs := 100, completedAt := some 500,
    createdAt := some 400, attemptId := "a" }

/-- A day state whose fence counter has already been consumed. -/
def stC2a : DayState :=
  { quiz := none, entries := [], winners := [], fenceCounter := 3, fencingFailures := 0 }

/-- A finished, counted attempt. -/
def attC2 : QuizAttempt :=
  { baseAttempt with
    answersSaved := true, score := 5, totalTimeMs := 1000, completedAt := some 10 }

/-- Sample: `attC2` joined with its user and SUCCESS payment. -/
def entryC2 : AttemptEntry :=
  { attempt := attC2, user := some baseUser, payment := some basePayment }

/-- A LIVE day with one finished attempt and a fence counter stuck at 7. -/
def stC2b : DayState :=
  { quiz := some baseQuiz, entries := [entryC2], winners := [],
    fenceCounter := 7, fencingFailures := 0 }

/-- A join request arriving from a second device. -/
def dC4 : DeviceInfo :=
  { deviceId := some "devB", deviceFingerprint := some "fpB", ipAddress := some "2.2.2.2" }

/-- An unfinished attempt locked to the first device. -/
def existingC4 : QuizAttempt :=
  { baseAttempt with lockedDeviceHash := some "devA:fpA:1.1.1.1" }

/-- Admission inputs with `existingC4` already present. -/
def envC4 : JoinEnv :=
  { quiz := some baseQuiz, user := none, payment := none,
    existingAttempt := some existingC4, currentIndex := 0, now := 50 }

/-- The device the sample answer submissions come from. -/
def dC1 : DeviceInfo :=
  { deviceId := some "devA", deviceFingerprint := none, ipAddress := none }

/-- An in-progress attempt whose eligibility snapshot froze `eligible =
false` (no payment at join time), locked to `dC1`. -/
def attC1 : QuizAttempt :=
  { baseAttempt with
    questionOrder := some [0], questionIds := some ["q0"],
    lockedDeviceHash := some (deviceHash dC1), quizStartedAt := some 1000,
    eligibilitySnapshot := some { eligible := false, reason := "PAYMENT_MISSING",
                                  paymentId := none, snapshotAt := 1000 } }

/-- Submission inputs for `attC1`: the quiz is LIVE on slot 0, a SUCCESS
payment now exists, and the user profile is complete. -/
def envC1 : SubmitEnv :=
  { today := "2024-01-01", quiz := some baseQuiz, attempt := some attC1,
    progress := none, user := some baseUser, payment := some basePayment,
    currentIndex := 0, questionStartTime := 4000, now := 5000 }

/-- Sample: `attC1` after an answer was already recorded at slot 0. -/
def attC9 : QuizAttempt :=
  { attC1 with answers := [some 1], answerTimestamps := [some 4500] }

/-- Submission inputs for the duplicate submission against `attC9`. -/
def envC9 : SubmitEnv :=
  { today := "2024-01-01", quiz := some baseQuiz, attempt := some attC9,
    progress := none, user := some baseUser, payment := some basePayment,
    currentIndex := 0, questionStartTime := 4000, now := 5000 }

/-- An ineligible attempt whose recorded answer would have scored a point. -/
def attC10 : QuizAttempt :=
  { baseAttempt with
    answers := [some 0], questionOrder := some [0], questionIds := some ["q0"],
    eligibilitySnapshot := some { eligible := false, reason := "PAYMENT_MISSING",
                                  paymentId := none, snapshotAt := 0 } }

/-- Finalization inputs for `attC10`. -/
def envC10 : FinalizeAttemptEnv :=
  { attempt := some attC10, quiz := some baseQuiz, user := none, payment := none,
    now := 900 }

/-- A two-question quiz (correct indices 0 and 2). -/
def quizC6 : Quiz :=
  { baseQuiz with questions := [q0, q1] }

/-- An eligible attempt over `quizC6` with shuffled question order `[1, 0]`
and per-slot option permutations; slot 0 is answered correctly (stored
shuffled choice 0 maps through `[2,0,3,1]` to original option 2), slot 1
incorrectly. -/
def attC6 : QuizAttempt :=
  { baseAttempt with
    answers := [some 0, some 3],
    questionOrder := some [1, 0],
    optionOrders := some [some [2, 0, 3, 1], some [1, 3, 0, 2]],
    eligibilitySnapshot := some { eligible := true, reason := "ELIGIBLE",
                                  paymentId := some "p1", snapshotAt := 0 } }

/-- Finalization inputs for `attC6`. -/
def envC6 : FinalizeAttemptEnv :=
  { attempt := some attC6, quiz := some quizC6, user := none, payment := none,
    now := 99 }

/-! ## Helper lemmas -/

/-- A fold that conditionally increments is a `countP`. -/
theorem foldl_count (p : α → Bool) (l : List α) (n : Nat) :
    l.foldl (fun s x => if p x then s + 1 else s) n = n + l.countP p := by
  induction l generalizing n with
  | nil => simp
  | cons a t ih =>
    rw [List.foldl_cons, ih, List.countP_cons]
    cases h : p a with
    | false => simp [h]
    | true => simp [h]; omega

/-- On a duplicate-free list, `findIndex`-by-equality inverts positional
lookup. -/
theorem jsFindIndex_get (l : List Nat) (hnd : l.Nodup) (si oi : Nat)
    (h : l.get? si = some oi) :
    jsFindIndex (fun x => x == oi) l = some si := by
  induction l generalizing si with
  | nil => simp [List.get?] at h
  | cons a t ih =>
    rcases List.nodup_cons.mp hnd with ⟨hna, hnt⟩
    cases si with
    | zero =>
      simp [List.get?] at h
      subst h
      simp [jsFindIndex]
    | succ si =>
      simp [List.get?] at h
      have hmem : oi ∈ t := List.getElem?_mem h
      have hne : (a == oi) = false := by
        simp only [beq_eq_false_iff_ne, ne_eq]
        exact fun e => hna (e ▸ hmem)
      have ht : t.get? si = some oi := by
        simpa [List.get?_eq_getElem?] using h
      simp [jsFindIndex, hne, ih hnt si ht]

/-- Positional reconstruction of a list from its indices. -/
theorem map_getD_range (l : List α) (d : α) :
    (List.range l.length).map (fun i => l.getD i d) = l := by
  induction l with
  | nil => simp
  | cons a t ih =>
    rw [List.length_cons, List.range_succ_eq_map, List.map_cons, List.map_map]
    have hcomp : ((fun i => (a :: t).getD i d) ∘ Nat.succ) = fun i => t.getD i d := by
      funext i
      rfl
    rw [hcomp, ih]
    rfl

/-- Counting over a list equals counting over its index range. -/
theorem countP_eq_range (l : List Nat) (p : Nat → Bool) :
    l.countP p = (List.range l.length).countP (fun i => p (l.getD i 0)) := by
  conv_lhs => rw [← map_getD_range l 0]
  rw [List.countP_map]
  rfl

/-- A duplicate-free list of `n` naturals all below `n` is a permutation of
`range n`. -/
theorem perm_range_of (qo : List Nat) (n : Nat) (hnd : qo.Nodup)
    (hlen : qo.length = n) (hmem : ∀ x ∈ qo, x < n) : qo.Perm (List.range n) := by
  have hsub : qo ⊆ List.range n := fun x hx => List.mem_range.mpr (hmem x hx)
  exact (hnd.subperm hsub).perm_of_length_le (by simp [hlen])

/-! ## Claim C5 -/

/-- C5: `transitionQuiz` succeeds exactly on the pairs of the
specification's transition relation; on success it sets the target state and
the corresponding timestamp field in the single written document; on an
illegal pair it fails with the invalid-transition error (writing nothing);
and `RESULT_PUBLISHED` has no outgoing transition. -/
theorem C5_transition_relation_enforced (q : Quiz) (toState : QuizState) (now : Nat) :
    ((∃ q1, transitionQuiz q toState now = .ok q1) ↔
       (q.state, toState) ∈ claimedQuizTransitions)
    ∧ (∀ q1, transitionQuiz q toState now = .ok q1 →
        q1.state = toState
        ∧ (toState = LOCKED → q1.lockedAt = some now)
        ∧ (toState = PAYMENT_CLOSED → q1.paymentClosedAt = some now)
        ∧ (toState = LIVE → q1.liveAt = some now)
        ∧ (toState = ENDED → q1.endedAt = some now)
        ∧ (toState = FINALIZED → q1.finalizedAt = some now)
        ∧ (toState = RESULT_PUBLISHED → q1.resultPublishedAt = some now))
    ∧ ((q.state, toState) ∉ claimedQuizTransitions →
        transitionQuiz q toState now =
          .error ("Invalid transition from " ++ stateName q.state ++ " to " ++ stateName toState))
    ∧ (∀ t, (RESULT_PUBLISHED, t) ∉ claimedQuizTransitions) := by
  refine ⟨?_, ?_, ?_, ?_⟩
  · cases hs : q.state <;> cases toState <;>
      simp [transitionQuiz, quizTransitions, claimedQuizTransitions,
        setTransitionTimestamp, hs]
  · intro q1 h
    unfold transitionQuiz at h
    split at h
    · exact absurd h (by simp)
    · injection h with h
      subst h
      cases toState <;> simp [setTransitionTimestamp]
  · intro hni
    unfold transitionQuiz
    split
    · rfl
    · exact absurd (by
        rename_i hmem
        cases hs : q.state <;> cases toState <;>
          simp_all [quizTransitions, claimedQuizTransitions]) hni
  · intro t
    cases t <;> simp [claimedQuizTransitions]

/-- Witness for C5: a DRAFT quiz transitions to SCHEDULED. -/
theorem C5_witness :
    ∃ q1, transitionQuiz { baseQuiz with state := DRAFT } SCHEDULED 5 = .ok q1 :=
  ((C5_transition_relation_enforced { baseQuiz with state := DRAFT } SCHEDULED 5).1).mpr
    (by decide)

/-! ## Claim C7 -/

/-- C7 (code-bug evidence): the leaderboard gate `isQuizClosed` accepts
ENDED and RESULT_PUBLISHED but rejects FINALIZED (and every remaining
state), so `getLeaderboard` fails on a FINALIZED quiz although the claim and
the specification list FINALIZED as available. -/
theorem C7_leaderboard_unavailable_when_finalized :
    isQuizClosed (some ENDED) = true
    ∧ isQuizClosed (some RESULT_PUBLISHED) = true
    ∧ isQuizClosed (some FINALIZED) = false
    ∧ isQuizClosed (some DRAFT) = false
    ∧ isQuizClosed (some SCHEDULED) = false
    ∧ isQuizClosed (some LOCKED) = false
    ∧ isQuizClosed (some PAYMENT_CLOSED) = false
    ∧ isQuizClosed (some LIVE) = false
    ∧ isQuizClosed none = false
    ∧ getLeaderboard (some FINALIZED) [] = .error "Failed to retrieve leaderboard"
    ∧ getLeaderboard (some ENDED) [] = .ok [] := by
  refine ⟨rfl, rfl, rfl, rfl, rfl, rfl, rfl, rfl, rfl, rfl, ?_⟩
  rfl

/-! ## Claim C8 -/

/-- C8 (amended): every reason the two eligibility evaluators can return
lies in the closed sets read off their return sites (which differ from the
set the claim lists). -/
theorem C8_reason_strings_closed (user : Option User) (payment : Option Payment)
    (quiz : Option Quiz) (now : Nat) (qz : Quiz) (att : Option QuizAttempt)
    (refund : Bool) :
    (evaluateEligibility user payment quiz now).reason ∈ evalEligibilityReasons
    ∧ (evaluateEligibilityForWinners user payment qz att refund).reason
        ∈ winnersEligibilityReasons := by
  constructor
  · unfold evaluateEligibility
    repeat' split
    all_goals simp [evalEligibilityReasons]
  · unfold evaluateEligibilityForWinners
    repeat' split
    all_goals simp [winnersEligibilityReasons]

/-- Counterexample for C8 as stated: with a LIVE quiz and no user row the
evaluator returns `USER_NOT_FOUND`, which is outside the claimed set. -/
theorem C8_counterexample :
    (evaluateEligibility none none (some baseQuiz) 0).reason = "USER_NOT_FOUND"
    ∧ "USER_NOT_FOUND" ∉ specClaimedReasons := by
  constructor
  · rfl
  · decide

/-! ## Claim C3 -/

/-- C3 (amended): two attempts with equal score, equal total time and equal
*present* `completedAt` values are ordered by `attemptId` alone —
`createdAt` is a fallback inside `completedAt || createdAt || 0` and is
never consulted when `completedAt` is present. -/
theorem C3_tiebreak_attemptId_when_completedAt_equal (a b : QuizAttempt) (t : Nat)
    (hs : a.score = b.score) (ht : a.totalTimeMs = b.totalTimeMs)
    (hca : a.completedAt = some t) (hcb : b.completedAt = some t) :
    sortAttemptsDeterministic a b = localeCompare a.attemptId b.attemptId := by
  unfold sortAttemptsDeterministic subTime
  simp [hs, ht, hca, hcb]

/-- Counterexample for C3 as stated: equal score, time and `completedAt`,
`aC3.createdAt < bC3.createdAt`, yet the comparator ranks `aC3` *after*
`bC3` (positive sign), because the tie-break goes to `attemptId`, not
`createdAt`. -/
theorem C3_counterexample :
    aC3.score = bC3.score
    ∧ aC3.totalTimeMs = bC3.totalTimeMs
    ∧ aC3.completedAt = bC3.completedAt
    ∧ aC3.createdAt = some 50
    ∧ bC3.createdAt = some 400
    ∧ sortAttemptsDeterministic aC3 bC3 = 1 := by
  refine ⟨rfl, rfl, rfl, by decide, by decide, by decide⟩

/-- Witness for C3 (amended) at the same concrete pair. -/
theorem C3_witness :
    sortAttemptsDeterministic aC3 bC3 = localeCompare aC3.attemptId bC3.attemptId :=
  C3_tiebreak_attemptId_when_completedAt_equal aC3 bC3 500 rfl rfl rfl rfl

/-! ## Claim C2 -/

/-- C2 (amended): a `finalizeWinners` call whose per-day fence-token
increment does not return 1 records a fencing failure and returns without
computing or persisting any winner rows — the resulting state differs from
the input only in the incremented token and the failure count.  (The second
half of the original claim fails: `endQuiz` computes winners without the
token, see the counterexample.) -/
theorem C2_finalizeWinners_fenced (st : DayState) (now : Nat)
    (h : st.fenceCounter ≠ 0) :
    finalizeWinners st now =
      .ok { st with fenceCounter := st.fenceCounter + 1,
                    fencingFailures := st.fencingFailures + 1 } := by
  unfold finalizeWinners
  have h1 : st.fenceCounter + 1 ≠ 1 := by omega
  simp [h1]

/-- Witness for C2 (amended) at a concrete consumed counter. -/
theorem C2_witness :
    finalizeWinners stC2a 0 =
      .ok { stC2a with fenceCounter := stC2a.fenceCounter + 1,
                       fencingFailures := stC2a.fencingFailures + 1 } :=
  C2_finalizeWinners_fenced stC2a 0 (by decide)

/-- Counterexample for C2 as stated: `endQuiz` computes and persists a
winner row for the day while never consulting the fence token (stuck at 7
throughout, so no caller held token value 1). -/
theorem C2_counterexample :
    stC2b.fenceCounter = 7
    ∧ (endQuiz stC2b 100).map (fun s => (s.winners, s.fenceCounter)) =
        .ok ([{ quizDate := "2024-01-01", user := "u1", rank := 1, score := 5,
                totalTimeMs := 1000 }], 7) := by
  constructor
  · rfl
  · rfl

/-! ## Claim C4 -/

/-- C4 (amended): when an attempt row already exists for `(user, date)`,
`createQuizAttemptAtomic` fails with the already-started error if
`answersSaved` is set, and otherwise returns the existing row unchanged
*without comparing device hashes* — the device-mismatch rejection lives only
in `handleExistingAttempt`, which the upsert path reaches only through the
duplicate-key race fallback. -/
theorem C4_admission_existing_row (env : JoinEnv) (userId quizDate : String)
    (d : DeviceInfo) (qz : Quiz) (existing : QuizAttempt)
    (hq : env.quiz = some qz) (hlive : qz.state = QuizState.LIVE)
    (hex : env.existingAttempt = some existing) :
    (existing.answersSaved = true →
      createQuizAttemptAtomic env userId quizDate d =
        .error "You have already started this quiz. Please complete it or wait for the next quiz.")
    ∧ (existing.answersSaved = false →
        createQuizAttemptAtomic env userId quizDate d = .ok existing)
    ∧ (existing.answersSaved = true →
        handleExistingAttempt existing d =
          .error "You have already started this quiz. Please complete it or wait for the next quiz.")
    ∧ (existing.answersSaved = false →
        truthyS existing.lockedDeviceHash = true →
        existing.lockedDeviceHash ≠ some (deviceHash d) →
        handleExistingAttempt existing d =
          .error "Device mismatch - this quiz attempt is locked to a different device")
    ∧ (existing.answersSaved = false →
        existing.lockedDeviceHash = some (deviceHash d) →
        handleExistingAttempt existing d = .ok existing) := by
  refine ⟨?_, ?_, ?_, ?_, ?_⟩
  · intro hsaved
    unfold createQuizAttemptAtomic
    rw [hq]
    simp [hlive, hex, hsaved]
  · intro hsaved
    unfold createQuizAttemptAtomic
    rw [hq]
    simp [hlive, hex, hsaved]
  · intro hsaved
    unfold handleExistingAttempt
    simp [hsaved]
  · intro hsaved htr hne
    unfold handleExistingAttempt
    simp [hsaved, htr, hne]
  · intro hsaved hlock
    unfold handleExistingAttempt
    simp [hsaved, hlock]

/-- Witness for C4 (amended): the existing unsaved row of `envC4` is
returned; the race-fallback helper would have rejected the same request. -/
theorem C4_witness :
    createQuizAttemptAtomic envC4 "u1" "2024-01-01" dC4 = .ok existingC4 :=
  ((C4_admission_existing_row envC4 "u1" "2024-01-01" dC4 baseQuiz existingC4
      rfl rfl rfl).2.1) rfl

/-- Counterexample for C4 as stated: the join arrives from a device whose
hash differs from the locked hash, yet the admission succeeds and returns
the existing row instead of failing with a device mismatch. -/
theorem C4_counterexample :
    existingC4.lockedDeviceHash ≠ some (deviceHash dC4)
    ∧ existingC4.answersSaved = false
    ∧ createQuizAttemptAtomic envC4 "u1" "2024-01-01" dC4 = .ok existingC4 := by
  refine ⟨by decide, rfl, ?_⟩
  rfl

/-! ## Claim C10 -/

/-- C10: when the per-user finalization's eligibility (the stored snapshot,
or a re-evaluation when the snapshot is missing) is not eligible,
`finalizeQuizAttempt` sets the score to 0 regardless of the recorded
answers, while still setting `answersSaved`, `completedAt` and
`finalizedAt`. -/
theorem C10_ineligible_finalize_scores_zero (env : FinalizeAttemptEnv)
    (att : QuizAttempt) (qz : Quiz)
    (ha : env.attempt = some att) (hf : att.finalizedAt = none)
    (hs : att.answersSaved = false) (hq : env.quiz = some qz)
    (he : (match att.eligibilitySnapshot with
           | some s => s.eligible
           | none => (evaluateEligibility env.user env.payment (some qz) env.now).eligible)
          = false) :
    ∃ a1, finalizeQuizAttempt env = .ok a1
      ∧ a1.score = 0
      ∧ a1.answersSaved = true
      ∧ a1.completedAt = some env.now
      ∧ a1.finalizedAt = some env.now := by
  unfold finalizeQuizAttempt
  rw [ha]
  simp only [hf, hs, hq, Option.isSome_none, Bool.false_eq_true, if_false]
  cases hsnap : att.eligibilitySnapshot with
  | none =>
    rw [hsnap] at he
    simp at he
    refine ⟨_, rfl, ?_, rfl, rfl, rfl⟩
    simp [he]
  | some s =>
    rw [hsnap] at he
    simp at he
    refine ⟨_, rfl, ?_, rfl, rfl, rfl⟩
    simp [he]

/-- Witness for C10: `attC10` holds a correct answer but its snapshot is
ineligible; finalization returns score 0 with the completion flags set. -/
theorem C10_witness :
    ∃ a1, finalizeQuizAttempt envC10 = .ok a1
      ∧ a1.score = 0
      ∧ a1.answersSaved = true
      ∧ a1.completedAt = some envC10.now
      ∧ a1.finalizedAt = some envC10.now :=
  C10_ineligible_finalize_scores_zero envC10 attC10 baseQuiz rfl rfl rfl rfl (by decide)

/-! ## Claim C1 -/

set_option maxHeartbeats 1600000 in
/-- C1 (amended): every accepted (non-duplicate) answer submission returns
`countsForScore` equal to the payment-based eligibility *re-evaluated at
submission time* (`isUserEligible`, i.e. `evaluateEligibility` over the
current user, payment and quiz rows) — not the attempt's creation-time
eligibility snapshot. -/
theorem C1_countsForScore_is_reevaluation (env : SubmitEnv) (questionId : String)
    (sel : Nat) (d : DeviceInfo) (r : SubmitResult)
    (h : (submitAnswer env questionId sel d).map (fun o => o.result) = .ok r)
    (hna : r.alreadyAnswered = false) :
    r.countsForScore =
      some ((evaluateEligibility env.user env.payment env.quiz env.now).eligible) := by
  unfold submitAnswer at h
  split at h
  · simp [Except.map] at h
  rename_i qz heq
  by_cases h1 : qz.state ≠ QuizState.LIVE
  · rw [if_pos h1] at h
    simp [Except.map] at h
  rw [if_neg h1] at h
  split at h
  · simp [Except.map] at h
  rename_i att hatt
  by_cases h2 : quizTimeLimitExceeded att env.now = true
  · rw [if_pos h2] at h
    simp [Except.map] at h
  rw [if_neg h2] at h
  by_cases h3 : lockedDeviceMismatch att d = true
  · rw [if_pos h3] at h
    simp [Except.map] at h
  rw [if_neg h3] at h
  by_cases h4 : legacyDeviceIdMismatch att d = true
  · rw [if_pos h4] at h
    simp [Except.map] at h
  rw [if_neg h4] at h
  by_cases h5 : legacyFingerprintMismatch att d = true
  · rw [if_pos h5] at h
    simp [Except.map] at h
  rw [if_neg h5] at h
  split at h
  · simp [Except.map] at h
  rename_i question hfind
  split at h
  · simp [Except.map] at h
  rename_i qi hslot
  by_cases h6 : questionIdMismatch att qi questionId = true
  · rw [if_pos h6] at h
    simp [Except.map] at h
  rw [if_neg h6] at h
  by_cases h7 : qi ≠ env.currentIndex
  · rw [if_pos h7] at h
    simp [Except.map] at h
  rw [if_neg h7] at h
  by_cases h8 : env.now - env.questionStartTime > 15000
  · rw [if_pos h8] at h
    simp [Except.map] at h
  rw [if_neg h8] at h
  by_cases h9 : perQuestionExpired att qi env.now = true
  · rw [if_pos h9] at h
    simp [Except.map] at h
  rw [if_neg h9] at h
  by_cases h10 : progressAlreadyAnswered env.progress questionId = true
  · rw [if_pos h10] at h
    simp only [Except.map] at h
    injection h with h2
    subst h2
    simp [dupOut] at hna
  rw [if_neg h10] at h
  by_cases h11 : attemptAlreadyAnswered att qi = true
  · rw [if_pos h11] at h
    simp only [Except.map] at h
    injection h with h2
    subst h2
    simp [dupOut] at hna
  rw [if_neg h11] at h
  by_cases h12 : rapidAnswer env.progress questionId env.now = true
  · rw [if_pos h12] at h
    simp [Except.map] at h
  rw [if_neg h12] at h
  simp only [Except.map] at h
  injection h with h2
  subst h2
  rfl

/-- Witness for C1 (amended): the accepted submission of `envC1` (snapshot
ineligible, payment present now) reports `countsForScore = some true`. -/
theorem C1_witness :
    ({ success := true, alreadyAnswered := false, isCorrect := some true,
       countsForScore := some true,
       message := "Answer recorded and will count" } : SubmitResult).countsForScore =
      some ((evaluateEligibility envC1.user envC1.payment envC1.quiz envC1.now).eligible) :=
  C1_countsForScore_is_reevaluation envC1 "q0" 0 dC1 _ (by rfl) (by rfl)

/-- Counterexample for C1 as stated: `attC1`'s immutable snapshot says
`eligible = false`, yet the accepted submission returns
`countsForScore = some true` because a SUCCESS payment exists at submission
time. -/
theorem C1_counterexample :
    (∃ s, attC1.eligibilitySnapshot = some s ∧ s.eligible = false)
    ∧ (submitAnswer envC1 "q0" 0 dC1).map (fun o => o.result.countsForScore) =
        .ok (some true) := by
  refine ⟨⟨_, rfl, rfl⟩, ?_⟩
  rfl

/-! ## Claim C9 -/

/-- C9: a submission for a slot that already holds a recorded answer — with
every gate before the duplicate check passing — returns a success result
with `alreadyAnswered = true` and changes no state: the attempt (answers and
timestamps included) and the progress document are returned untouched. -/
theorem C9_duplicate_submission_idempotent (env : SubmitEnv) (questionId : String)
    (sel : Nat) (d : DeviceInfo) (qz : Quiz) (att : QuizAttempt)
    (question : Question) (qi : Nat)
    (hq : env.quiz = some qz) (hlive : qz.state = QuizState.LIVE)
    (ha : env.attempt = some att)
    (h30 : quizTimeLimitExceeded att env.now = false)
    (hdev : lockedDeviceMismatch att d = false)
    (hdev2 : legacyDeviceIdMismatch att d = false)
    (hdev3 : legacyFingerprintMismatch att d = false)
    (hfind : qz.questions.find? (fun q => q.qid == questionId) = some question)
    (hslot : findSlotOfQuestion qz (attemptQuestionOrder att qz) questionId = some qi)
    (hqid : questionIdMismatch att qi questionId = false)
    (hcur : qi = env.currentIndex)
    (ht15 : env.now - env.questionStartTime ≤ 15000)
    (hpq : perQuestionExpired att qi env.now = false)
    (hdup : attemptAlreadyAnswered att qi = true) :
    submitAnswer env questionId sel d = .ok (dupOut att env.progress) := by
  subst hcur
  have h15 : ¬ (env.now - env.questionStartTime > 15000) := by omega
  by_cases hprog : progressAlreadyAnswered env.progress questionId = true
  · unfold submitAnswer
    simp [hq, hlive, ha, h30, hdev, hdev2, hdev3, hfind, hslot, hqid,
      h15, hpq, hprog]
  · unfold submitAnswer
    simp [hq, hlive, ha, h30, hdev, hdev2, hdev3, hfind, hslot, hqid,
      h15, hpq, hprog, hdup]

/-- Witness for C9: resubmitting slot 0 of `attC9` (already answered) with a
different selected option returns the idempotent success and leaves the
attempt and progress untouched. -/
theorem C9_witness :
    submitAnswer envC9 "q0" 2 dC1 = .ok (dupOut attC9 none) :=
  C9_duplicate_submission_idempotent envC9 "q0" 2 dC1 baseQuiz attC9 q0 0
    rfl rfl rfl rfl rfl rfl rfl (by rfl) (by rfl) rfl rfl (by decide) rfl rfl

/-! ## Claim C6 -/

/-- The scoring loop of `finalizeQuizAttempt` (a per-original-question loop
through `indexOf`) computes exactly the per-slot count of correctly answered
slots, whenever the question order is a permutation and every answered slot
carries a full 4-element option permutation. -/
theorem computeScore_eq_specScoreBySlot (questions : List Question) (qo : List Nat)
    (oos : List (Option (List Nat))) (answers : List (Option Nat))
    (hnd : qo.Nodup) (hlen : qo.length = questions.length)
    (hmem : ∀ x ∈ qo, x < questions.length)
    (hopt : ∀ si a, answers.get? si = some (some a) →
      ∃ l, oos.get? si = some (some l) ∧ l.Perm (List.range 4)) :
    computeScore questions qo oos answers = specScoreBySlot questions qo oos answers := by
  have hperm : qo.Perm (List.range questions.length) := perm_range_of qo _ hnd hlen hmem
  have hfold : computeScore questions qo oos answers
      = (List.range questions.length).countP (scoreOne questions qo oos answers) := by
    have h0 := foldl_count (scoreOne questions qo oos answers) (List.range questions.length) 0
    simpa [computeScore] using h0
  have hpt : ∀ si oi, qo.get? si = some oi →
      specSlotCorrect questions qo oos answers si
        = scoreOne questions qo oos answers oi := by
    intro si oi hsi
    have hoi : oi < questions.length := hmem oi (List.get?_mem hsi)
    rcases hqq : questions.get? oi with _ | q
    · rw [List.get?_eq_none] at hqq
      omega
    have hfi : jsFindIndex (fun x => x == oi) qo = some si :=
      jsFindIndex_get qo hnd si oi hsi
    unfold specSlotCorrect scoreOne
    rcases hans : answers.get? si with _ | sa
    · simp only [hsi, hqq, hfi, hans]
    rcases sa with _ | a
    · rcases hoo : oos.get? si with _ | ol
      · simp only [hsi, hqq, hfi, hans, hoo]
      · rcases ol with _ | l
        · simp only [hsi, hqq, hfi, hans, hoo]
        · simp only [hsi, hqq, hfi, hans, hoo, ite_self]
    · obtain ⟨l, hl, hlp⟩ := hopt si a hans
      have hl4 : l.length = 4 := by simpa using hlp.length_eq
      simp only [hsi, hqq, hfi, hans, hl, hl4, if_true]
  calc computeScore questions qo oos answers
      = (List.range questions.length).countP (scoreOne questions qo oos answers) := hfold
    _ = qo.countP (scoreOne questions qo oos answers) := (hperm.countP_eq _).symm
    _ = (List.range qo.length).countP
          (fun si => scoreOne questions qo oos answers (qo.getD si 0)) :=
        countP_eq_range qo _
    _ = (List.range qo.length).countP (specSlotCorrect questions qo oos answers) := by
        apply List.countP_congr
        intro si hsi2
        have hsi3 : si < qo.length := List.mem_range.mp hsi2
        have hget : qo.get? si = some (qo.getD si 0) := by
          rcases hg : qo.get? si with _ | v
          · rw [List.get?_eq_none] at hg
            omega
          · rw [List.getD_eq_getElem?_getD, ← List.get?_eq_getElem?, hg]
            rfl
        rw [hpt si _ hget]
    _ = specScoreBySlot questions qo oos answers := rfl

/-- C6: scoring is invariant under the per-user question permutation and the
per-slot option permutations: for an eligible attempt whose `questionOrder`
is a permutation of the question indices and whose `optionOrders` hold a
full 4-element permutation at every answered slot, finalization returns the
per-slot count of slots whose originally-selected option is the correct
option — and the stored answer array is not rewritten. -/
theorem C6_scoring_invariant_under_permutations (env : FinalizeAttemptEnv)
    (att : QuizAttempt) (qz : Quiz) (qo : List Nat) (oos : List (Option (List Nat)))
    (ha : env.attempt = some att) (hf : att.finalizedAt = none)
    (hs : att.answersSaved = false) (hq : env.quiz = some qz)
    (hsnap : ∃ s, att.eligibilitySnapshot = some s ∧ s.eligible = true)
    (hqo : att.questionOrder = some qo)
    (hoos : att.optionOrders = some oos)
    (hnd : qo.Nodup) (hlen : qo.length = qz.questions.length)
    (hmem : ∀ x ∈ qo, x < qz.questions.length)
    (hopt : ∀ si a, att.answers.get? si = some (some a) →
      ∃ l, oos.get? si = some (some l) ∧ l.Perm (List.range 4)) :
    ∃ a1, finalizeQuizAttempt env = .ok a1
      ∧ a1.answers = att.answers
      ∧ a1.score = specScoreBySlot qz.questions qo oos att.answers := by
  obtain ⟨s, hsn, hse⟩ := hsnap
  unfold finalizeQuizAttempt
  rw [ha]
  simp only [hf, hs, hq, Option.isSome_none, Bool.false_eq_true, if_false]
  rw [hsn]
  refine ⟨_, rfl, rfl, ?_⟩
  simp only [hse, if_true, attemptQuestionOrder, hqo, hoos, Option.getD_some]
  exact computeScore_eq_specScoreBySlot qz.questions qo oos att.answers hnd hlen hmem hopt

/-- Witness for C6 at the concrete shuffled attempt `attC6`: finalization
scores exactly the one correctly answered slot and leaves the answer array
alone. -/
theorem C6_witness :
    ∃ a1, finalizeQuizAttempt envC6 = .ok a1
      ∧ a1.answers = attC6.answers
      ∧ a1.score = specScoreBySlot quizC6.questions [1, 0]
          [some [2, 0, 3, 1], some [1, 3, 0, 2]] attC6.answers :=
  C6_scoring_invariant_under_permutations envC6 attC6 quizC6 [1, 0]
    [some [2, 0, 3, 1], some [1, 3, 0, 2]]
    rfl rfl rfl rfl ⟨_, rfl, rfl⟩ rfl rfl (by decide) (by decide) (by decide)
    (by
      intro si a h
      rcases si with _ | _ | si
      · simp [attC6, baseAttempt] at h
        subst h
        exact ⟨[2, 0, 3, 1], rfl, perm_range_of _ 4 (by decide) rfl (by decide)⟩
      · simp [attC6, baseAttempt] at h
        subst h
        exact ⟨[1, 3, 0, 2], rfl, perm_range_of _ 4 (by decide) rfl (by decide)⟩
      · simp [attC6, baseAttempt] at h)

end DME
